import Mathlib

/-!
Verification of the D++ Discord gateway shard client
(`src/dpp/discordclient.cpp`).

We shallowly embed the session state machine of `DiscordClient`:
the frame handler `HandleFrame` (compressed-frame boundary detection,
zlib inflation outcomes, envelope dispatch for opcodes 0/7/9/10/11),
the once-per-second scheduler `OneSecondTimer` (liveness check,
outbound drain, heartbeat emission), and the identify throttle.

External collaborators (the JSON parser, the zlib inflate stream, the
byte-to-text decode of an uncompressed frame) are passed in as explicit
oracle parameters: the embedding fixes only the control flow and state
updates the source performs around them.  Machine integers become `Nat`
(with an explicit wrap where the C arithmetic is a fixed-width multiply),
C `time_t` subtraction becomes `Int` subtraction, and the one `double`
comparison of the heartbeat scheduler becomes the exact `ℚ` comparison
(the quantities involved, `k/4000` against an integer, are never within
double rounding error of each other, so the rational model coincides
with the IEEE one).
-/

namespace DPP

/-- Outbound gateway messages produced by the client.  The source builds
these as JSON and `dump`s them to strings; we keep them structured,
with `raw` standing for an arbitrary user-queued text frame. -/
inductive OutMsg where
  /-- op 6: `{token, session_id, seq}` -/
  | resume (token sessionid : String) (seq : Nat)
  /-- op 2: identify payload; `intents = 0` means the field is omitted. -/
  | identify (token : String) (shard_id max_shards intents : Nat)
  /-- op 1: `{op:1, d:last_seq}` -/
  | heartbeat (seq : Nat)
  /-- any other text frame queued via `QueueMessage` -/
  | raw (s : String)
  deriving DecidableEq, Repr

/-- The mutable session state of one `DiscordClient` shard, together with
the cluster-shared `last_identify` timestamp (`creator->last_identify`). -/
structure ClientState where
  token : String
  shard_id : Nat
  max_shards : Nat
  intents : Nat
  compressed : Bool
  sessionid : String
  last_seq : Nat
  /-- `heartbeat_interval`, in milliseconds, as received in HELLO. -/
  heartbeat_interval : Nat
  /-- `last_heartbeat` — the time the last heartbeat was *sent*. -/
  last_heartbeat : Nat
  last_heartbeat_ack : Nat
  connect_time : Nat
  reconnects : Nat
  resumes : Nat
  ready : Bool
  decompressed_total : Nat
  message_queue : List OutMsg
  /-- cluster-wide `creator->last_identify` -/
  last_identify : Nat
  deriving DecidableEq, Repr

/-- Observable side effects of one call into the client: frames written
directly to the websocket, `Error()` invocations, transport closes,
log events the claims care about, the dispatched event name (op 0),
and the garbage-collection hook. -/
structure Effects where
  /-- frames passed to `this->write(...)`, in order -/
  writes : List OutMsg := []
  /-- `::close(sfd)` / `this->close()` was called -/
  closed : Bool := false
  /-- arguments of `Error(...)` calls -/
  errors : List Nat := []
  /-- a JSON parse failure was logged, with the offending payload -/
  parseFail : Option String := none
  /-- event name forwarded to `HandleEvent` (op 0) -/
  dispatched : Option String := none
  /-- `dpp::garbage_collection()` was invoked -/
  gcInvoked : Bool := false
  /-- the missed-ACK warning was logged -/
  warned : Bool := false
  /-- the wall-clock second at which an IDENTIFY was written -/
  identTime : Option Nat := none
  deriving DecidableEq, Repr

/-- The fields of a parsed gateway envelope that `HandleFrame` reads:
`op`, `s`, `t`, and `d.heartbeat_interval`.  A `none` models the field
being absent or JSON `null` (the source checks both before reading). -/
structure Envelope where
  op : Option Nat := none
  s : Option Nat := none
  t : Option String := none
  heartbeat_interval : Option Nat := none
  deriving DecidableEq, Repr

/-- Result of one `inflate(&d_stream, Z_NO_FLUSH)` call. -/
inductive ZRet where
  | needDict
  | streamError
  | dataError
  | memError
  /-- `Z_OK`, producing `chunk` (the `have` bytes of output) -/
  | ok (chunk : String)
  /-- any other return value (the `default:` stub arm) -/
  | other
  deriving DecidableEq, Repr

/-- One step of the inflate loop: the zlib return value together with
whether the 512 KiB output buffer was completely filled
(`d_stream.avail_out == 0`), which is the do-while continuation test. -/
structure ZStep where
  ret : ZRet
  outFull : Bool
  deriving DecidableEq, Repr

/-- Outcome of the inflate do-while loop: either an error return path
(with the error code passed to `Error`, plus the text and byte count
accumulated before the failure), or normal completion. -/
inductive InflateOutcome where
  | err (code : Nat) (acc : String) (tot : Nat)
  | done (acc : String) (tot : Nat)
  deriving DecidableEq, Repr

/-- The do-while inflate loop of `HandleFrame` (lines 136–168), driven by
the oracle list of zlib step results.  `acc` is `this->decompressed`
(cleared by the caller), `tot` the bytes added to `decompressed_total`. -/
def runInflate : List ZStep → String → Nat → InflateOutcome
  | [], acc, tot => .done acc tot
  | step :: rest, acc, tot =>
    match step.ret with
    | .needDict => .err 6000 acc tot
    | .streamError => .err 6000 acc tot
    | .dataError => .err 6001 acc tot
    | .memError => .err 6002 acc tot
    | .ok chunk =>
      if step.outFull then runInflate rest (acc ++ chunk) (tot + chunk.length)
      else .done (acc ++ chunk) (tot + chunk.length)
    | .other =>
      if step.outFull then runInflate rest acc tot
      else .done acc tot

/-- The compressed-frame completeness test of `HandleFrame` (lines
130–131): it reads `buffer[buffer.size()-4 .. buffer.size()-1]` with no
length guard, so for a buffer shorter than 4 bytes the `size_t` index
underflows and the access is out of bounds — modelled as `none`. -/
def trailerCheck (buffer : List Nat) : Option Bool :=
  if buffer.length < 4 then none
  else some ((buffer.getD (buffer.length - 4) 0 == 0x00)
    && (buffer.getD (buffer.length - 3) 0 == 0x00)
    && (buffer.getD (buffer.length - 2) 0 == 0xFF)
    && (buffer.getD (buffer.length - 1) 0 == 0xFF))

/-- `if (j.find("s") != j.end() && !j["s"].is_null()) last_seq = j["s"]`. -/
def applySeq (st : ClientState) (e : Envelope) : ClientState :=
  match e.s with
  | some v => { st with last_seq := v }
  | none => st

/-- Capture of `d.heartbeat_interval` at the top of the op-10 arm. -/
def applyHbi (st : ClientState) (hbi : Option Nat) : ClientState :=
  match hbi with
  | some v => { st with heartbeat_interval := v }
  | none => st

/-- The identify-throttle wait loop
`while (time(NULL) < creator->last_identify + 5) sleep(...)`: the time at
which the loop exits, i.e. the first instant `≥ last_identify + 5`
(or `now` itself when the gate is already open). -/
def identifyWait (now li : Nat) : Nat :=
  if now < li + 5 then li + 5 else now

/-- The shared op-10 (HELLO) arm of `HandleFrame` (lines 203–257), also
reached from op 9 by fallthrough.  Captures `heartbeat_interval`, then
either RESUMEs (when `last_seq && !sessionid.empty()`) or waits out the
identify throttle and IDENTIFYs; finally sets `last_heartbeat_ack` to
the current time (which, after the throttle sleep, is the send time). -/
def helloAction (st : ClientState) (now : Nat) (hbi : Option Nat) :
    ClientState × Effects :=
  let st := applyHbi st hbi
  if st.last_seq ≠ 0 ∧ st.sessionid ≠ "" then
    ({ st with resumes := st.resumes + 1, last_heartbeat_ack := now },
     { writes := [.resume st.token st.sessionid st.last_seq] })
  else
    let t := identifyWait now st.last_identify
    ({ st with connect_time := t, last_identify := t,
               reconnects := st.reconnects + 1, last_heartbeat_ack := t },
     { writes := [.identify st.token st.shard_id st.max_shards st.intents],
       identTime := some t })

/-- The text phase of `HandleFrame` (lines 177–276): JSON parse (the
oracle's verdict is `env`), the `s` update, and the opcode switch.
Op 9 clears the session state and falls through into the op-10 arm. -/
def handleText (st : ClientState) (now : Nat) (env : Option Envelope)
    (data : String) : ClientState × Effects :=
  match env with
  | none => (st, { parseFail := some data })
  | some e =>
    let st := applySeq st e
    match e.op with
    | some 9 =>
      helloAction { st with sessionid := "", last_seq := 0 } now
        e.heartbeat_interval
    | some 10 => helloAction st now e.heartbeat_interval
    | some 0 => (st, { dispatched := some (e.t.getD "") })
    | some 7 => ({ st with message_queue := [] }, { closed := true })
    | some 11 => ({ st with last_heartbeat_ack := now }, {})
    | _ => (st, {})

/-- Result of `HandleFrame`: `incomplete` is the `return false` of a
partial compressed frame; `consumed` is `return true`. -/
inductive HandleResult where
  | incomplete
  | consumed (st : ClientState) (eff : Effects)
  deriving DecidableEq, Repr

/-- `DiscordClient::HandleFrame` (lines 123–277).  `parse` is the JSON
parser oracle, `decode` the byte-to-text reading of an uncompressed
buffer, `zsteps` the zlib oracle.  The `none` result is the undefined
out-of-bounds read of the completeness test on a short buffer. -/
def handleFrame (st : ClientState) (now : Nat)
    (parse : String → Option Envelope) (decode : List Nat → String)
    (buffer : List Nat) (zsteps : List ZStep) : Option HandleResult :=
  if st.compressed then
    match trailerCheck buffer with
    | none => none
    | some false => some .incomplete
    | some true =>
      match runInflate zsteps "" 0 with
      | .err code _acc tot =>
        some (.consumed
          { st with decompressed_total := st.decompressed_total + tot }
          { errors := [code], closed := true })
      | .done acc tot =>
        let st1 := { st with
          decompressed_total := st.decompressed_total + tot }
        let r := handleText st1 now (parse acc) acc
        some (.consumed r.1 r.2)
  else
    let d := decode buffer
    let r := handleText st now (parse d) d
    some (.consumed r.1 r.2)

/-- The per-tick outbound budget `(time(NULL) % 2) + 1`. -/
def drainCount (now : Nat) : Nat := now % 2 + 1

/-- The missed-ACK liveness test of `OneSecondTimer` (line 377):
`(time(nullptr) - last_heartbeat_ack) > heartbeat_interval * 2`.
`time_t` subtraction is signed (`Int`); `heartbeat_interval` is a
`uint32_t`, so the doubling wraps modulo `2^32`.  Note the source does
NOT divide the millisecond interval by 1000 here. -/
def missedAck (st : ClientState) (now : Nat) : Bool :=
  decide ((now : Int) - (st.last_heartbeat_ack : Int)
    > ((st.heartbeat_interval * 2) % 4294967296 : Nat))

/-- The heartbeat-due test of `OneSecondTimer` (line 399):
`time(NULL) > last_heartbeat + ((heartbeat_interval / 1000.0) * 0.75)`,
as the exact rational comparison. -/
def heartbeatDue (st : ClientState) (now : Nat) : Bool :=
  decide ((now : ℚ) > (st.last_heartbeat : ℚ)
    + ((st.heartbeat_interval : ℚ) / 1000) * (3 / 4))

/-- `DiscordClient::OneSecondTimer` (lines 368–406).  `transportConnected`
is `GetState() == CONNECTED`; together with `ready` it forms
`IsConnected()`.  Order: liveness check (early return), outbound drain
of `drainCount now` messages, heartbeat emission at the queue front. -/
def oneSecondTimer (st : ClientState) (now : Nat)
    (transportConnected : Bool) : ClientState × Effects :=
  if transportConnected ∧ st.ready then
    if missedAck st now then
      ({ st with message_queue := [] }, { closed := true, warned := true })
    else
      let sent := st.message_queue.take (drainCount now)
      let st := { st with
        message_queue := st.message_queue.drop (drainCount now) }
      if st.heartbeat_interval ≠ 0 ∧ st.last_seq ≠ 0 ∧ heartbeatDue st now then
        ({ st with message_queue := .heartbeat st.last_seq :: st.message_queue,
                   last_heartbeat := now },
         { writes := sent, gcInvoked := true })
      else (st, { writes := sent })
  else (st, {})

/-! ### Concrete fixtures used by the witness theorems -/

/-- A session in mid-flight: resumable (`sessionid = "abc"`, `last_seq = 42`),
connected and ready, with three user messages queued. -/
def stBase : ClientState :=
  { token := "tok", shard_id := 0, max_shards := 1, intents := 513,
    compressed := false, sessionid := "abc", last_seq := 42,
    heartbeat_interval := 40000, last_heartbeat := 100,
    last_heartbeat_ack := 100, connect_time := 0, reconnects := 0,
    resumes := 0, ready := true, decompressed_total := 0,
    message_queue := [.raw "m1", .raw "m2", .raw "m3"], last_identify := 0 }

/-- A compressed-mode client with no resumable session. -/
def stComp : ClientState :=
  { stBase with compressed := true, sessionid := "", last_seq := 0 }

/-- The spec's S4 scenario: interval 40000 ms, last ACK 85 s ago at the
tick `now = 1000000`; heartbeats disabled (`last_seq = 0`) so the tick's
outcome is decided by the liveness check and the drain alone. -/
def stC2 : ClientState :=
  { stBase with last_heartbeat_ack := 999915, last_seq := 0 }

/-- A healthy connected session with heartbeats disabled
(`last_seq = 0`), for observing the drain in isolation. -/
def stDrain : ClientState :=
  { stBase with last_seq := 0, last_heartbeat_ack := 1000000 }

/-- A cold session (nothing to resume) whose cluster last identified at
198, about to handle HELLO at 200. -/
def stIdent : ClientState :=
  { stBase with sessionid := "", last_seq := 0, last_identify := 198 }

/-- A parser oracle that recognises the single payload `"ack"` as a
heartbeat-ACK envelope (`op = 11`) and rejects everything else. -/
def parseAck : String → Option Envelope :=
  fun s => if s = "ack" then some { op := some 11 } else none

/-- Trivial byte-to-text decode used where the text phase is not reached. -/
def decodeEmpty : List Nat → String := fun _ => ""

/-- A zlib oracle: one `Z_OK` call producing `"ack"`, output buffer not
filled, so the do-while loop exits after one iteration. -/
def zOk11 : List ZStep := [⟨.ok "ack", false⟩]

/-! ### Helper lemmas -/

theorem applySeq_sessionid (st : ClientState) (e : Envelope) :
    (applySeq st e).sessionid = st.sessionid := by
  unfold applySeq; split <;> rfl

theorem applySeq_token (st : ClientState) (e : Envelope) :
    (applySeq st e).token = st.token := by
  unfold applySeq; split <;> rfl

theorem applySeq_resumes (st : ClientState) (e : Envelope) :
    (applySeq st e).resumes = st.resumes := by
  unfold applySeq; split <;> rfl

theorem applySeq_last_identify (st : ClientState) (e : Envelope) :
    (applySeq st e).last_identify = st.last_identify := by
  unfold applySeq; split <;> rfl

theorem applyHbi_sessionid (st : ClientState) (hbi : Option Nat) :
    (applyHbi st hbi).sessionid = st.sessionid := by
  unfold applyHbi; split <;> rfl

theorem applyHbi_last_seq (st : ClientState) (hbi : Option Nat) :
    (applyHbi st hbi).last_seq = st.last_seq := by
  unfold applyHbi; split <;> rfl

theorem applyHbi_token (st : ClientState) (hbi : Option Nat) :
    (applyHbi st hbi).token = st.token := by
  unfold applyHbi; split <;> rfl

theorem applyHbi_shard_id (st : ClientState) (hbi : Option Nat) :
    (applyHbi st hbi).shard_id = st.shard_id := by
  unfold applyHbi; split <;> rfl

theorem applyHbi_max_shards (st : ClientState) (hbi : Option Nat) :
    (applyHbi st hbi).max_shards = st.max_shards := by
  unfold applyHbi; split <;> rfl

theorem applyHbi_intents (st : ClientState) (hbi : Option Nat) :
    (applyHbi st hbi).intents = st.intents := by
  unfold applyHbi; split <;> rfl

theorem applyHbi_resumes (st : ClientState) (hbi : Option Nat) :
    (applyHbi st hbi).resumes = st.resumes := by
  unfold applyHbi; split <;> rfl

theorem applyHbi_reconnects (st : ClientState) (hbi : Option Nat) :
    (applyHbi st hbi).reconnects = st.reconnects := by
  unfold applyHbi; split <;> rfl

theorem applyHbi_last_identify (st : ClientState) (hbi : Option Nat) :
    (applyHbi st hbi).last_identify = st.last_identify := by
  unfold applyHbi; split <;> rfl

/-- The heartbeat-due `double` comparison, restated exactly over the
integers: `now > lh + (hb/1000)·(3/4)` iff `4000·now > 4000·lh + 3·hb`. -/
theorem heartbeatDue_iff (st : ClientState) (now : Nat) :
    heartbeatDue st now = true ↔
      4000 * st.last_heartbeat + 3 * st.heartbeat_interval < 4000 * now := by
  unfold heartbeatDue
  rw [decide_eq_true_eq, gt_iff_lt]
  rw [show ((4000 * st.last_heartbeat + 3 * st.heartbeat_interval : Nat)
        < 4000 * now
      ↔ ((4000 * (st.last_heartbeat : ℚ) + 3 * (st.heartbeat_interval : ℚ))
        < 4000 * (now : ℚ))) by exact_mod_cast Iff.rfl]
  constructor <;> intro h <;> nlinarith [h]

/-- The last four bytes of a buffer of length `≥ 4`, as read by the
indexed accesses `buffer[size-4] .. buffer[size-1]` of the source. -/
theorem drop_length_sub_four (l : List Nat) (h : 4 ≤ l.length) :
    l.drop (l.length - 4)
      = [l.getD (l.length - 4) 0, l.getD (l.length - 3) 0,
         l.getD (l.length - 2) 0, l.getD (l.length - 1) 0] := by
  induction l with
  | nil => simp at h
  | cons x xs ih =>
    by_cases h4 : 4 ≤ xs.length
    · have e1 : (x :: xs).length - 4 = (xs.length - 4) + 1 := by
        simp [List.length_cons]; omega
      have e2 : (x :: xs).length - 3 = (xs.length - 3) + 1 := by
        simp [List.length_cons]; omega
      have e3 : (x :: xs).length - 2 = (xs.length - 2) + 1 := by
        simp [List.length_cons]; omega
      have e4 : (x :: xs).length - 1 = (xs.length - 1) + 1 := by
        simp [List.length_cons]; omega
      rw [e1, e2, e3, e4, List.drop_succ_cons, List.getD_cons_succ,
        List.getD_cons_succ, List.getD_cons_succ, List.getD_cons_succ, ih h4]
    · have h3 : xs.length = 3 := by
        simp only [List.length_cons] at h; omega
      obtain ⟨a, b, c, rfl⟩ := List.length_eq_three.mp h3
      simp [List.getD]

/-- On a buffer long enough for the indexed reads to be in bounds, the
source's completeness test decides exactly whether the final four bytes
are the zlib sync trailer. -/
theorem trailerCheck_eq_some (buffer : List Nat) (h : 4 ≤ buffer.length) :
    trailerCheck buffer
      = some (decide (buffer.drop (buffer.length - 4)
          = [0x00, 0x00, 0xFF, 0xFF])) := by
  unfold trailerCheck
  rw [if_neg (by omega)]
  congr 1
  rw [drop_length_sub_four buffer h]
  rw [Bool.eq_iff_iff]
  simp only [Bool.and_eq_true, beq_iff_eq, decide_eq_true_eq, List.cons.injEq,
    and_true]
  tauto

/-! ### Claim theorems -/

/-- C1: On an op-10 (HELLO) frame, `HandleFrame` sends exactly one of
RESUME or IDENTIFY, selected by the predicate
`session_id ≠ "" ∧ last_sequence > 0` (evaluated after the envelope's
`s` update and the `heartbeat_interval` capture): if it holds, a RESUME
(op 6) with payload `{token, session_id, seq}` is written and `resumes`
is incremented; otherwise an IDENTIFY (op 2) is written.  In both cases
`last_heartbeat_ack` is then set to the current time (after the identify
throttle wait, in the IDENTIFY case). -/
theorem hello_selects_resume_or_identify (st st2 : ClientState) (now : Nat)
    (e : Envelope) (data : String) (hop : e.op = some 10)
    (hst2 : st2 = applyHbi (applySeq st e) e.heartbeat_interval) :
    (handleText st now (some e) data).2.writes.length = 1 ∧
    (st2.sessionid ≠ "" ∧ st2.last_seq ≠ 0 →
      (handleText st now (some e) data).2.writes
        = [.resume st2.token st2.sessionid st2.last_seq] ∧
      (handleText st now (some e) data).1.resumes = st.resumes + 1 ∧
      (handleText st now (some e) data).1.last_heartbeat_ack = now) ∧
    (¬(st2.sessionid ≠ "" ∧ st2.last_seq ≠ 0) →
      (handleText st now (some e) data).2.writes
        = [.identify st2.token st2.shard_id st2.max_shards st2.intents] ∧
      (handleText st now (some e) data).1.resumes = st.resumes ∧
      (handleText st now (some e) data).1.last_heartbeat_ack
        = identifyWait now st2.last_identify) := by
  obtain ⟨op, s, t, hbi⟩ := e
  change op = some 10 at hop
  subst hop
  change st2 = applyHbi (applySeq st ⟨some 10, s, t, hbi⟩) hbi at hst2
  have hres : st2.resumes = st.resumes := by
    rw [hst2, applyHbi_resumes, applySeq_resumes]
  simp only [handleText, helloAction]
  rw [← hst2]
  by_cases hc : st2.last_seq ≠ 0 ∧ st2.sessionid ≠ ""
  · rw [if_pos hc]
    refine ⟨rfl, fun _ => ⟨rfl, ?_, rfl⟩, fun hn => absurd ⟨hc.2, hc.1⟩ hn⟩
    show st2.resumes + 1 = st.resumes + 1
    rw [hres]
  · rw [if_neg hc]
    refine ⟨rfl, fun hp => absurd ⟨hp.2, hp.1⟩ hc, fun _ => ⟨rfl, ?_, rfl⟩⟩
    show st2.resumes = st.resumes
    rw [hres]

/-- C1 witness: a resumable session (`"abc"`, seq 42) receiving HELLO
writes exactly the RESUME frame. -/
theorem hello_selects_resume_or_identify_witness :
    (handleText stBase 200
        (some { op := some 10, heartbeat_interval := some 41250 }) "x").2.writes
      = [.resume "tok" "abc" 42] := by
  have h := hello_selects_resume_or_identify stBase
    (applyHbi (applySeq stBase { op := some 10, heartbeat_interval := some 41250 })
      (some 41250))
    200 { op := some 10, heartbeat_interval := some 41250 } "x" rfl rfl
  rw [(h.2.1 (by decide)).1]
  decide

/-- C2: the liveness check of `OneSecondTimer` compares the elapsed
seconds against `heartbeat_interval * 2` with the interval still in
milliseconds (no division by 1000).  At the spec's own S4 input —
`heartbeat_interval_ms = 40000`, `last_heartbeat_ack = now − 85 s` —
`85 > 80` holds (the claimed trigger), yet the code evaluates
`85 > 80000`, does not warn, does not close the transport, and proceeds
to drain the queue instead of clearing it. -/
theorem missed_ack_not_triggered_at_85s :
    1000000 - 999915 = 85 ∧ (85 : Nat) > 2 * 40000 / 1000 ∧
    stC2.heartbeat_interval = 40000 ∧ stC2.ready = true ∧
    (oneSecondTimer stC2 1000000 true).2.closed = false ∧
    (oneSecondTimer stC2 1000000 true).2.warned = false ∧
    (oneSecondTimer stC2 1000000 true).1.message_queue ≠ [] := by decide

/-- C3 counterexample: the drain budget `(now % 2) + 1` is 1 on EVEN
seconds and 2 on ODD seconds — the reverse of the claim's gloss.  With
three queued messages and no liveness timeout, the even-second tick
1000000 sends one message (the claim says two) and the odd-second tick
1000001 sends two (the claim says one). -/
theorem drain_parity_counterexample :
    1000000 % 2 = 0 ∧ 1000001 % 2 = 1 ∧
    2 ≤ stDrain.message_queue.length ∧
    (oneSecondTimer stDrain 1000000 true).2.writes = [.raw "m1"] ∧
    (oneSecondTimer { stDrain with last_heartbeat_ack := 1000001 } 1000001
        true).2.writes
      = [.raw "m1", .raw "m2"] := by decide

/-- C3 (amended): for every tick while connected and ready with no
liveness timeout, the drain pops and sends `(now % 2) + 1` messages
from the queue front (given the queue holds that many), which is 1
message on even seconds and 2 messages on odd seconds. -/
theorem drain_budget (st : ClientState) (now : Nat)
    (hready : st.ready = true) (hlive : missedAck st now = false)
    (hlen : drainCount now ≤ st.message_queue.length) :
    (oneSecondTimer st now true).2.writes
      = st.message_queue.take (drainCount now) ∧
    (oneSecondTimer st now true).2.writes.length = drainCount now ∧
    (now % 2 = 0 → drainCount now = 1) ∧
    (now % 2 = 1 → drainCount now = 2) := by
  simp only [drainCount] at hlen ⊢
  simp only [oneSecondTimer, hready, hlive, and_true, if_true,
    Bool.false_eq_true, if_false, drainCount]
  split <;>
    exact ⟨rfl, by simp [List.length_take]; omega, fun h => by omega,
      fun h => by omega⟩

/-- C3 witness: at the odd second 1000001 the tick sends the first two
queued messages. -/
theorem drain_budget_witness :
    (oneSecondTimer { stDrain with last_heartbeat_ack := 1000001 } 1000001
        true).2.writes
      = [.raw "m1", .raw "m2"] ∧ drainCount 1000001 = 2 := by
  have h := drain_budget { stDrain with last_heartbeat_ack := 1000001 }
    1000001 rfl (by decide) (by decide)
  exact ⟨by rw [h.1]; decide, h.2.2.2 (by decide)⟩

/-- C4: an op-9 (INVALID_SESSION) frame clears `session_id` and
`last_sequence` and falls through into the HELLO arm, which — the resume
predicate now false — writes exactly an IDENTIFY, never a RESUME, and
increments `reconnects`. -/
theorem invalid_session_reidentifies (st : ClientState) (now : Nat)
    (e : Envelope) (data : String) (hop : e.op = some 9) :
    (handleText st now (some e) data).1.sessionid = "" ∧
    (handleText st now (some e) data).1.last_seq = 0 ∧
    (handleText st now (some e) data).2.writes
      = [.identify st.token st.shard_id st.max_shards st.intents] ∧
    (handleText st now (some e) data).1.reconnects = st.reconnects + 1 := by
  obtain ⟨op, s, t, hbi⟩ := e
  change op = some 9 at hop
  subst hop
  cases s <;> cases hbi <;> simp [handleText, helloAction, applySeq, applyHbi]

/-- C4 witness: a resumable session receiving `{"op":9}` ends with the
session cleared and exactly one IDENTIFY written. -/
theorem invalid_session_reidentifies_witness :
    (handleText stBase 200 (some { op := some 9 }) "x").1.sessionid = "" ∧
    (handleText stBase 200 (some { op := some 9 }) "x").1.last_seq = 0 ∧
    (handleText stBase 200 (some { op := some 9 }) "x").2.writes
      = [.identify "tok" 0 1 513] := by
  have h := invalid_session_reidentifies stBase 200 { op := some 9 } "x" rfl
  exact ⟨h.1, h.2.1, by rw [h.2.2.1]; decide⟩

/-- C5: on a compressed client with an in-bounds buffer, `HandleFrame`
returns `incomplete` (false) exactly when the final four bytes are not
`00 00 FF FF`; when they are, the buffer is inflated and the resulting
text is processed as the frame payload. -/
theorem compressed_frame_boundary (st : ClientState) (now : Nat)
    (parse : String → Option Envelope) (decode : List Nat → String)
    (buffer : List Nat) (zsteps : List ZStep)
    (hcomp : st.compressed = true) (h4 : 4 ≤ buffer.length) :
    (handleFrame st now parse decode buffer zsteps = some .incomplete ↔
      buffer.drop (buffer.length - 4) ≠ [0x00, 0x00, 0xFF, 0xFF]) ∧
    (∀ acc tot, buffer.drop (buffer.length - 4) = [0x00, 0x00, 0xFF, 0xFF] →
      runInflate zsteps "" 0 = .done acc tot →
      handleFrame st now parse decode buffer zsteps
        = some (.consumed
            (handleText
              { st with decompressed_total := st.decompressed_total + tot }
              now (parse acc) acc).1
            (handleText
              { st with decompressed_total := st.decompressed_total + tot }
              now (parse acc) acc).2)) := by
  constructor
  · by_cases htr : buffer.drop (buffer.length - 4) = [0x00, 0x00, 0xFF, 0xFF]
    · simp only [handleFrame, hcomp, trailerCheck_eq_some buffer h4, htr,
        decide_eq_true_eq, if_true]
      cases hr : runInflate zsteps "" 0 <;> simp [htr]
    · simp [handleFrame, hcomp, trailerCheck_eq_some buffer h4, htr]
  · intro acc tot htr hrun
    simp [handleFrame, hcomp, trailerCheck_eq_some buffer h4, htr, hrun]

/-- C5 witness: fragment `A = [1,2,3,4]` (no sync trailer) is reported
incomplete; the reassembled `A‖B` ending in `00 00 FF FF` inflates to
the payload `"ack"` (an op-11 envelope under `parseAck`), which is
handled: `last_heartbeat_ack` is updated and the byte count accounted. -/
theorem compressed_frame_boundary_witness :
    handleFrame stComp 0 parseAck decodeEmpty [1, 2, 3, 4] zOk11
      = some .incomplete ∧
    handleFrame stComp 0 parseAck decodeEmpty [1, 2, 0x00, 0x00, 0xFF, 0xFF]
        zOk11
      = some (.consumed
          { stComp with decompressed_total := 3, last_heartbeat_ack := 0 }
          {}) := by
  have h1 := compressed_frame_boundary stComp 0 parseAck decodeEmpty
    [1, 2, 3, 4] zOk11 rfl (by decide)
  have h2 := compressed_frame_boundary stComp 0 parseAck decodeEmpty
    [1, 2, 0x00, 0x00, 0xFF, 0xFF] zOk11 rfl (by decide)
  refine ⟨h1.1.mpr (by decide), ?_⟩
  rw [h2.2 "ack" 3 (by decide) (by decide)]
  decide

/-- C6: before sending IDENTIFY the shard waits until
`now ≥ last_identify + 5`; the send time is at least 5 seconds after the
cluster's `last_identify` and not before `now`; on send it sets
`last_identify` and `connect_time` to that time and increments
`reconnects`. -/
theorem identify_throttle_gate (st : ClientState) (now : Nat)
    (hbi : Option Nat) (hnores : ¬(st.last_seq ≠ 0 ∧ st.sessionid ≠ "")) :
    (helloAction st now hbi).2.writes
      = [.identify st.token st.shard_id st.max_shards st.intents] ∧
    (helloAction st now hbi).2.identTime
      = some (identifyWait now st.last_identify) ∧
    st.last_identify + 5 ≤ identifyWait now st.last_identify ∧
    now ≤ identifyWait now st.last_identify ∧
    (helloAction st now hbi).1.last_identify
      = identifyWait now st.last_identify ∧
    (helloAction st now hbi).1.connect_time
      = identifyWait now st.last_identify ∧
    (helloAction st now hbi).1.reconnects = st.reconnects + 1 := by
  cases hbi <;>
    simp [helloAction, applyHbi, hnores, identifyWait] <;>
    split <;> omega

/-- C6 witness: with `last_identify = 198` and `now = 200`, the IDENTIFY
is emitted at 203 = 198 + 5 and the counters updated. -/
theorem identify_throttle_gate_witness :
    (helloAction stIdent 200 (some 41250)).2.identTime = some 203 ∧
    (helloAction stIdent 200 (some 41250)).1.last_identify = 203 ∧
    (helloAction stIdent 200 (some 41250)).1.reconnects = 1 := by
  have h := identify_throttle_gate stIdent 200 (some 41250) (by decide)
  exact ⟨by rw [h.2.1]; decide, by rw [h.2.2.2.2.1]; decide,
    by rw [h.2.2.2.2.2.2]; decide⟩

/-- C7: inside the inflate loop, `Z_NEED_DICT` and `Z_STREAM_ERROR`
produce error code 6000, `Z_DATA_ERROR` 6001 and `Z_MEM_ERROR` 6002;
whenever the loop ends in an error, `HandleFrame` raises exactly that
code via `Error` (which logs it), closes the transport, and reports the
frame as consumed. -/
theorem zlib_error_codes (st : ClientState) (now : Nat)
    (parse : String → Option Envelope) (decode : List Nat → String)
    (buffer : List Nat) (zsteps : List ZStep)
    (hcomp : st.compressed = true) (htr : trailerCheck buffer = some true) :
    (∀ (step : ZStep) (rest : List ZStep) (acc : String) (tot : Nat),
      step.ret = .needDict ∨ step.ret = .streamError →
      runInflate (step :: rest) acc tot = .err 6000 acc tot) ∧
    (∀ (step : ZStep) (rest : List ZStep) (acc : String) (tot : Nat),
      step.ret = .dataError →
      runInflate (step :: rest) acc tot = .err 6001 acc tot) ∧
    (∀ (step : ZStep) (rest : List ZStep) (acc : String) (tot : Nat),
      step.ret = .memError →
      runInflate (step :: rest) acc tot = .err 6002 acc tot) ∧
    (∀ (code : Nat) (acc : String) (tot : Nat),
      runInflate zsteps "" 0 = .err code acc tot →
      handleFrame st now parse decode buffer zsteps
        = some (.consumed
            { st with decompressed_total := st.decompressed_total + tot }
            { errors := [code], closed := true })) := by
  refine ⟨?_, ?_, ?_, ?_⟩
  · rintro step rest acc tot (hs | hs) <;> simp [runInflate, hs]
  · intro step rest acc tot hs; simp [runInflate, hs]
  · intro step rest acc tot hs; simp [runInflate, hs]
  · intro code acc tot hrun
    simp [handleFrame, hcomp, htr, hrun]

/-- C7 witness: a trailer-complete buffer whose first inflate call
returns `Z_DATA_ERROR` yields `Error(6001)`, a closed transport, and a
consumed frame. -/
theorem zlib_error_codes_witness :
    runInflate [⟨.dataError, false⟩] "" 0 = .err 6001 "" 0 ∧
    handleFrame stComp 0 parseAck decodeEmpty [1, 0x00, 0x00, 0xFF, 0xFF]
        [⟨.dataError, false⟩]
      = some (.consumed stComp { errors := [6001], closed := true }) := by
  have h := zlib_error_codes stComp 0 parseAck decodeEmpty
    [1, 0x00, 0x00, 0xFF, 0xFF] [⟨.dataError, false⟩] rfl (by decide)
  refine ⟨h.2.1 ⟨.dataError, false⟩ [] "" 0 rfl, ?_⟩
  rw [h.2.2.2 6001 "" 0 (by decide)]
  decide

/-- C8: after the drain step, if `heartbeat_interval > 0`,
`last_sequence > 0` and `now` exceeds
`last_heartbeat_sent + 0.75·(heartbeat_interval/1000)` (stated here in
the exact integer form `4000·now > 4000·last_heartbeat + 3·interval`,
see `heartbeatDue_iff`), then `{op:1, d:last_sequence}` is enqueued at
the queue front, `last_heartbeat` is set to `now` and the
garbage-collection hook runs; otherwise no heartbeat is enqueued. -/
theorem heartbeat_emission (st : ClientState) (now : Nat)
    (hready : st.ready = true) (hlive : missedAck st now = false) :
    (0 < st.heartbeat_interval ∧ 0 < st.last_seq ∧
        4000 * st.last_heartbeat + 3 * st.heartbeat_interval < 4000 * now →
      (oneSecondTimer st now true).1.message_queue
        = .heartbeat st.last_seq :: st.message_queue.drop (drainCount now) ∧
      (oneSecondTimer st now true).1.last_heartbeat = now ∧
      (oneSecondTimer st now true).2.gcInvoked = true) ∧
    (¬(0 < st.heartbeat_interval ∧ 0 < st.last_seq ∧
        4000 * st.last_heartbeat + 3 * st.heartbeat_interval < 4000 * now) →
      (oneSecondTimer st now true).1.message_queue
        = st.message_queue.drop (drainCount now) ∧
      (oneSecondTimer st now true).1.last_heartbeat = st.last_heartbeat ∧
      (oneSecondTimer st now true).2.gcInvoked = false) := by
  have hd := heartbeatDue_iff
    { st with message_queue := st.message_queue.drop (drainCount now) } now
  simp only [oneSecondTimer, hready, hlive, and_true, if_true,
    Bool.false_eq_true, if_false]
  constructor
  · intro hc
    rw [if_pos ⟨Nat.pos_iff_ne_zero.mp hc.1, Nat.pos_iff_ne_zero.mp hc.2.1,
      hd.mpr hc.2.2⟩]
    exact ⟨rfl, rfl, rfl⟩
  · intro hc
    rw [if_neg]
    · exact ⟨rfl, rfl, rfl⟩
    · intro h
      exact hc ⟨Nat.pos_iff_ne_zero.mpr h.1, Nat.pos_iff_ne_zero.mpr h.2.1,
        hd.mp h.2.2⟩

/-- C8 witness: with interval 40000 ms, last heartbeat at 100 and
`now = 131 > 100 + 30`, the tick enqueues `{op:1, d:42}` at the front
and runs the GC hook. -/
theorem heartbeat_emission_witness :
    (oneSecondTimer stBase 131 true).1.message_queue
      = [.heartbeat 42, .raw "m3"] ∧
    (oneSecondTimer stBase 131 true).1.last_heartbeat = 131 ∧
    (oneSecondTimer stBase 131 true).2.gcInvoked = true := by
  have h := (heartbeat_emission stBase 131 rfl (by decide)).1 (by decide)
  exact ⟨by rw [h.1]; decide, h.2.1, h.2.2⟩

/-- C9: a decoded text frame that does not parse as JSON is logged with
the payload and dropped: `HandleFrame` reports it consumed, the session
state is unchanged, nothing is written and the transport stays open. -/
theorem parse_failure_drops_frame (st : ClientState) (now : Nat)
    (parse : String → Option Envelope) (decode : List Nat → String)
    (buffer : List Nat) (zsteps : List ZStep)
    (hcomp : st.compressed = false) (hp : parse (decode buffer) = none) :
    handleFrame st now parse decode buffer zsteps
      = some (.consumed st { parseFail := some (decode buffer) }) := by
  simp [handleFrame, hcomp, handleText, hp]

/-- C9 witness: the non-JSON payload `"junk"` is consumed with the
session state intact and the parse failure logged with the payload. -/
theorem parse_failure_drops_frame_witness :
    handleFrame stBase 0 parseAck (fun _ => "junk") [0] zOk11
      = some (.consumed stBase { parseFail := some "junk" }) := by
  exact parse_failure_drops_frame stBase 0 parseAck (fun _ => "junk") [0]
    zOk11 rfl (by decide)

/-- C10: the compressed-frame completeness test reads
`buffer[size-4..size-1]` with no length guard, so for every buffer
shorter than 4 bytes the index underflows out of bounds; the embedding
is undefined (`none`) exactly on those buffers, i.e. totalising it
requires the precondition `buffer.length ≥ 4`. -/
theorem short_buffer_not_totalisable (st : ClientState) (now : Nat)
    (parse : String → Option Envelope) (decode : List Nat → String)
    (buffer : List Nat) (zsteps : List ZStep)
    (hcomp : st.compressed = true) :
    (handleFrame st now parse decode buffer zsteps = none ↔
      buffer.length < 4) := by
  by_cases h4 : buffer.length < 4
  · simp [handleFrame, hcomp, trailerCheck, h4]
  · rw [handleFrame]
    simp only [hcomp, if_true, trailerCheck_eq_some buffer (by omega)]
    cases hdec : decide (buffer.drop (buffer.length - 4)
        = [0x00, 0x00, 0xFF, 0xFF])
    · simp [h4]
    · cases hr : runInflate zsteps "" 0 <;> simp [h4]

/-- C10 witness: a 3-byte buffer on a compressed client has no defined
`HandleFrame` result. -/
theorem short_buffer_not_totalisable_witness :
    handleFrame stComp 0 parseAck decodeEmpty [1, 2, 3] zOk11 = none := by
  exact (short_buffer_not_totalisable stComp 0 parseAck decodeEmpty
    [1, 2, 3] zOk11 rfl).mpr (by decide)

end DPP
